import Mathlib

/-!
Verification development for the training-programme dashboard (src/app.py).

The Python program is shallowly embedded: pandas DataFrames become `List Record`,
pandas `NaT`/`NaN` dates become `Option SDate`, and code that can raise a Python
exception is embedded with `Except String` (an `.error` value models a raised
exception reaching that point).  Machine-level concerns (plotly figure styling,
string presentation of numbers) carry no claim content and are represented by
the data each figure or sheet is built from.
-/

/-- A Python value as it appears in a record cell for the free-form columns
(`Penyelenggara`, `Metode`, ...): a string, an integer, or a missing value
(`NaN`).  `astype(str)` on these is `pyStr`. -/
inductive PyVal where
  | s (v : String)
  | i (v : Int)
  | nan
deriving DecidableEq, Repr

/-- Python `str()` / pandas `astype(str)` on a cell value (`str(nan) = "nan"`). -/
def pyStr : PyVal → String
  | .s v => v
  | .i v => toString v
  | .nan => "nan"

/-- A calendar date (pandas `Timestamp` at day granularity). -/
structure SDate where
  year : Nat
  month : Nat
  day : Nat
deriving DecidableEq, Repr

/-- Gregorian leap year, as used by Python `datetime` / numpy `datetime64`. -/
def isLeap (y : Nat) : Prop := y % 4 = 0 ∧ (y % 100 ≠ 0 ∨ y % 400 = 0)

instance (y : Nat) : Decidable (isLeap y) := by
  unfold isLeap
  infer_instance

/-- Cumulative day count before month `m` (1-indexed) in a non-leap year. -/
def monthOffset : Nat → Nat
  | 1 => 0
  | 2 => 31
  | 3 => 59
  | 4 => 90
  | 5 => 120
  | 6 => 151
  | 7 => 181
  | 8 => 212
  | 9 => 243
  | 10 => 273
  | 11 => 304
  | 12 => 334
  | _ => 0

/-- Number of days of month `m` in year `y` (Gregorian calendar). -/
def daysInMonth (y m : Nat) : Nat :=
  if m = 2 then (if isLeap y then 29 else 28)
  else if m = 4 ∨ m = 6 ∨ m = 9 ∨ m = 11 then 30
  else 31

/-- Ordinal day within year `y` of the date `(y, m, d)` (1-indexed). -/
def dayOfYear (y m d : Nat) : Nat :=
  monthOffset m + (if 2 < m ∧ isLeap y then 1 else 0) + d

/-- Rata-die day number of a date: days elapsed from the proleptic Gregorian
epoch, with 0001-01-01 being day 1.  This is the arithmetic meaning of a
`datetime64[D]` value (up to the fixed 1970 offset, see `epochDays`). -/
def rataDie (dt : SDate) : Nat :=
  365 * (dt.year - 1) + (dt.year - 1) / 4 - (dt.year - 1) / 100 + (dt.year - 1) / 400
    + dayOfYear dt.year dt.month dt.day

/-- Days since 1970-01-01, the value a pandas `Timestamp` date carries;
subtraction of two `Timestamp`s with `.dt.days` is subtraction of these. -/
def epochDays (dt : SDate) : Int :=
  (rataDie dt : Int) - 719163

/-- The next calendar day. -/
def nextDay (dt : SDate) : SDate :=
  if dt.day < daysInMonth dt.year dt.month then ⟨dt.year, dt.month, dt.day + 1⟩
  else if dt.month < 12 then ⟨dt.year, dt.month + 1, 1⟩
  else ⟨dt.year + 1, 1, 1⟩

/-- The date is a real calendar date (with a positive year). -/
def validDate (dt : SDate) : Prop :=
  1 ≤ dt.year ∧ 1 ≤ dt.month ∧ dt.month ≤ 12 ∧ 1 ≤ dt.day ∧ dt.day ≤ daysInMonth dt.year dt.month

instance (dt : SDate) : Decidable (validDate dt) := by
  unfold validDate
  infer_instance

/-- The fixed Indonesian-to-English month table of `parse_indonesian_date`
(src/app.py lines 87-92). -/
def month_map : List (String × String) :=
  [("Januari", "January"), ("Februari", "February"), ("Maret", "March"),
   ("April", "April"), ("Mei", "May"), ("Juni", "June"),
   ("Juli", "July"), ("Agustus", "August"), ("September", "September"),
   ("Oktober", "October"), ("November", "November"), ("Desember", "December")]

/-- English month name to month number, as recognised by the `%B` directive of
the strict `pd.to_datetime(..., format=...)` call (src/app.py line 104). -/
def monthNumberEn (n : String) : Option Nat :=
  List.lookup n
    [("January", 1), ("February", 2), ("March", 3), ("April", 4),
     ("May", 5), ("June", 6), ("July", 7), ("August", 8),
     ("September", 9), ("October", 10), ("November", 11), ("December", 12)]

/-- Helper for `pySplit`: walk the character list, `cur` holding the current
piece in reverse; whitespace closes the piece (empty pieces are dropped). -/
def pySplitAux : List Char → List Char → List String
  | [], cur => if cur.isEmpty then [] else [String.mk cur.reverse]
  | c :: rest, cur =>
    if c.isWhitespace then
      if cur.isEmpty then pySplitAux rest [] else String.mk cur.reverse :: pySplitAux rest []
    else
      pySplitAux rest (c :: cur)

/-- Python `str.split()` with no argument: split on whitespace runs, dropping
empty pieces (src/app.py line 95). -/
def pySplit (s : String) : List String :=
  pySplitAux s.toList []

/-- All characters of the string are ASCII decimal digits. -/
def allDigits (s : String) : Bool :=
  s.toList.all Char.isDigit

/-- Numeric value of a decimal digit string. -/
def natOfDigits (s : String) : Nat :=
  s.toList.foldl (fun acc c => acc * 10 + (c.toNat - Char.toNat '0')) 0

/-- Lexicographic order on calendar dates. -/
def dateLe (y1 m1 d1 y2 m2 d2 : Nat) : Bool :=
  decide (y1 < y2 ∨ (y1 = y2 ∧ (m1 < m2 ∨ (m1 = m2 ∧ d1 ≤ d2))))

/-- The date lies in the representable range of a nanosecond-resolution pandas
`Timestamp` (midnight of 1677-09-22 through midnight of 2262-04-11); outside it
`pd.to_datetime` raises `OutOfBoundsDatetime`. -/
def pandas_in_bounds (y m d : Nat) : Bool :=
  dateLe 1677 9 22 y m d && dateLe y m d 2262 4 11

/-- The strict parse `pd.to_datetime(date_en, format=...)` with format
`%d %B %Y` (src/app.py line 104) on the reassembled `"day month_en year"`
text: `%d` accepts one or two digits with value 1-31, `%B` an English month
name, `%Y` exactly four digits; the resulting triple must be a real calendar
date inside the `Timestamp` range, else the call raises (modelled as `none`,
since every raise here is caught by the bare `except`). -/
def strptime_d_B_Y (dayS monthEn yearS : String) : Option SDate :=
  match monthNumberEn monthEn with
  | none => none
  | some m =>
    let d := natOfDigits dayS
    let y := natOfDigits yearS
    if allDigits dayS && decide (1 ≤ dayS.length) && decide (dayS.length ≤ 2)
        && allDigits yearS && decide (yearS.length = 4)
        && decide (1 ≤ d) && decide (d ≤ daysInMonth y m)
        && pandas_in_bounds y m d then
      some ⟨y, m, d⟩
    else
      none

/-- The localized branch of `parse_indonesian_date` (src/app.py lines 94-104):
split the text on whitespace; with at least three pieces, take day, Indonesian
month name and year, translate the month name through `month_map`, and parse
the reassembled text strictly.  `none` when any of these steps fails (no
pieces, unknown month name, or a strict-parse exception, which the bare
`except` swallows). -/
def localized_parse (s : String) : Option SDate :=
  let parts := pySplit s
  match parts.get? 0, parts.get? 1, parts.get? 2 with
  | some day, some monthInd, some year =>
    match List.lookup monthInd month_map with
    | some monthEn => strptime_d_B_Y day monthEn year
    | none => none
  | _, _, _ => none

/-- Embedding of `parse_indonesian_date` (src/app.py lines 82-108) on text
input.  The permissive generic fallback `pd.to_datetime(date_str,
errors='coerce')` (line 108) is a third-party parser passed in as `g`; with
`errors='coerce'` it never raises and yields `NaT` (`none`) on failure, so it
is any total function into `Option SDate`.  The function itself is total:
unparsable input yields a null date rather than an exception. -/
def parse_indonesian_date (g : String → Option SDate) (s : String) : Option SDate :=
  match localized_parse s with
  | some dt => some dt
  | none => g s

/-- Modelled from the spec: the "permissive generic date parser" used as the
fallback (spec 4.2); its implementation (`pd.to_datetime(..., errors='coerce')`
over dateutil) is not part of src/.  dateutil knows no Indonesian month names
and `errors='coerce'` turns every failure (including an out-of-range year)
into a null date, so on the Indonesian-month-name texts considered in this
file it returns `none`; only that behaviour is relied upon. -/
def generic_fallback : String → Option SDate := fun _ => none

/-- Embedding of the `Durasi` derivation `(df['Akhir'] - df['Mulai']).dt.days
+ 1` (src/app.py line 142): subtraction of two timestamps in whole days plus
one; `NaT` on either side propagates to a missing duration. -/
def durasi (mulai akhir : Option SDate) : Option Int :=
  match mulai, akhir with
  | some s, some e => some (epochDays e - epochDays s + 1)
  | _, _ => none

/-- A normalized training record, one row of the record set held in the UI
data store: the output schema of `process_data` (src/app.py lines 110-151)
after the store round trip.  Dates are `Option SDate` (`none` is `NaT`);
`TotalPeserta` and `TotalJamlator` are numeric and never missing after
normalization (`fillna(0)`, line 149); the free-form columns are `PyVal`. -/
structure Record where
  NamaProgramPembelajaran : String
  Mulai : Option SDate
  Akhir : Option SDate
  Metode : PyVal
  Penyelenggara : PyVal
  TotalPeserta : Int
  TotalJamlator : Int
  Jumlahkelas : PyVal
  LevelEvaluasi : PyVal
  Bulan_Num : Option Nat
  Bulan_Indo : String
  Tahun : Option Nat
  Durasi : Option Int
deriving DecidableEq, Repr

/-- The fixed calendar order of localized month names, `bulan_urutan`
(src/app.py lines 166-169). -/
def bulan_urutan : List String :=
  ["Januari", "Februari", "Maret", "April", "Mei", "Juni",
   "Juli", "Agustus", "September", "Oktober", "November", "Desember"]

/-- Dashboard month filter (src/app.py lines 566-567): with a truthy filter
list, keep the rows whose `Bulan_Indo` is in the list (`isin`); an absent or
empty list leaves the rows unchanged. -/
def filter_bulan (f : List String) (rows : List Record) : List Record :=
  if f.isEmpty then rows else rows.filter (fun r => f.contains r.Bulan_Indo)

/-- Dashboard organizer filter (src/app.py lines 569-570): membership of the
row value converted to text (`astype(str).isin`). -/
def filter_penyelenggara (f : List String) (rows : List Record) : List Record :=
  if f.isEmpty then rows else rows.filter (fun r => f.contains (pyStr r.Penyelenggara))

/-- Dashboard method filter (src/app.py lines 572-573): membership of the row
value converted to text (`astype(str).isin`). -/
def filter_metode (f : List String) (rows : List Record) : List Record :=
  if f.isEmpty then rows else rows.filter (fun r => f.contains (pyStr r.Metode))

/-- Insert a keyed count into a list sorted by descending count, after all
entries with a count at least as large (so the sort below is stable). -/
def insertByCountDesc {α : Type} (x : α × Nat) : List (α × Nat) → List (α × Nat)
  | [] => [x]
  | y :: ys => if x.2 ≤ y.2 then y :: insertByCountDesc x ys else x :: y :: ys

/-- pandas `Series.value_counts()`: the distinct values of the list, each with
its number of occurrences, in descending count order (ties keep first
occurrence first). -/
def value_counts {α : Type} [DecidableEq α] (xs : List α) : List (α × Nat) :=
  let distinct := xs.foldl (fun acc x => if acc.contains x then acc else acc ++ [x]) []
  (distinct.map (fun v => (v, (xs.filter (fun x => x = v)).length))).foldl
    (fun acc p => insertByCountDesc p acc) []

/-- The values `update_dashboard` (src/app.py lines 561-739) returns: the KPI
numbers, the data each chart is drawn from (`none` when the empty-subset
branch builds a blank figure instead), and the table preview rows (empty when
the empty-subset branch shows the no-data message).  Figure styling and cell
formatting are presentation and carry no record content beyond this. -/
structure DashOut where
  totalPelatihan : Nat
  totalPeserta : Int
  eLearningCount : Nat
  pjjCount : Nat
  totalJamlator : Int
  filteredCount : Nat
  avgPeserta : Rat
  byMonth : Option (List (String × Nat))
  byMetode : Option (List (PyVal × Nat))
  byPenyelenggara : Option (List (PyVal × Nat))
  byLevel : Option (List (PyVal × Nat))
  preview : List Record
deriving DecidableEq, Repr

/-- Embedding of the `update_dashboard` callback (src/app.py lines 561-739).
`pd.DataFrame(data_dict)` over an empty record list has no columns at all, so
the first column access raises `KeyError` (modelled as `.error`): at the
first truthy filter (lines 567/570/573), otherwise at the `Metode` access of
line 592.  With a non-empty record list every column exists (and filtering
preserves columns), so the callback completes: the three filters are applied
in source order, then the KPIs, the per-chart groupings (lines 596-673, with
the `filtered_df.empty` branches yielding blank figures, `none`), and the
first-15-rows table preview (lines 676-728).  `by_month` is
`value_counts().reindex(bulan_urutan, fill_value=0)` (line 597): for each of
the 12 localized month names in fixed order, the number of matching rows,
zero when the name is absent. -/
def update_dashboard (data : List Record) (bulanF penF metF : List String) :
    Except String DashOut :=
  if data.isEmpty then
    if ¬ bulanF.isEmpty then .error "KeyError: Bulan_Indo"
    else if ¬ penF.isEmpty then .error "KeyError: Penyelenggara"
    else if ¬ metF.isEmpty then .error "KeyError: Metode"
    else .error "KeyError: Metode"
  else
    let filtered := filter_metode metF (filter_penyelenggara penF (filter_bulan bulanF data))
    let total_pelatihan := filtered.length
    let total_peserta : Int := (filtered.map (fun r => r.TotalPeserta)).sum
    let avg_peserta : Rat :=
      if 0 < filtered.length then (total_peserta : Rat) / (filtered.length : Rat) else 0
    let total_jamlator : Int := (filtered.map (fun r => r.TotalJamlator)).sum
    let e_learning_count := (filtered.filter (fun r => pyStr r.Metode = "E-Learning")).length
    let pjj_count := (filtered.filter (fun r => pyStr r.Metode = "PJJ")).length
    let by_month :=
      if filtered.isEmpty then none
      else some (bulan_urutan.map
        (fun b => (b, (filtered.filter (fun r => r.Bulan_Indo = b)).length)))
    let by_metode :=
      if filtered.isEmpty then none
      else some (value_counts (filtered.map (fun r => r.Metode)))
    let by_penyelenggara :=
      if filtered.isEmpty then none
      else some ((value_counts (filtered.map (fun r => r.Penyelenggara))).take 10)
    let by_level :=
      if filtered.isEmpty then none
      else some (value_counts (filtered.map (fun r => r.LevelEvaluasi)))
    let preview := if filtered.isEmpty then [] else filtered.take 15
    .ok ⟨total_pelatihan, total_peserta, e_learning_count, pjj_count, total_jamlator,
      total_pelatihan, avg_peserta, by_month, by_metode, by_penyelenggara, by_level, preview⟩

/-- Projection used to state facts about the `by_month` chart data of a
callback outcome (`none` when the callback raised). -/
def okByMonth (r : Except String DashOut) : Option (Option (List (String × Nat))) :=
  match r with
  | .ok o => some o.byMonth
  | .error _ => none

/-- Export month filter (src/app.py lines 783-784), textually duplicated from
the dashboard filter. -/
def export_filter_bulan (f : List String) (rows : List Record) : List Record :=
  if f.isEmpty then rows else rows.filter (fun r => f.contains r.Bulan_Indo)

/-- Export organizer filter (src/app.py lines 786-787). -/
def export_filter_penyelenggara (f : List String) (rows : List Record) : List Record :=
  if f.isEmpty then rows else rows.filter (fun r => f.contains (pyStr r.Penyelenggara))

/-- Export method filter (src/app.py lines 789-790). -/
def export_filter_metode (f : List String) (rows : List Record) : List Record :=
  if f.isEmpty then rows else rows.filter (fun r => f.contains (pyStr r.Metode))

/-- Environment of an export run: whether the in-memory spreadsheet writer
(openpyxl, lines 821-856) raises, and with what message.  All other steps of
the export body are pure computation on the records. -/
structure ExportEnv where
  writerFailure : Option String
deriving DecidableEq, Repr

/-- The produced workbook, represented by the rows of its Detail sheet
(`df_export`, one row per filtered record; src/app.py lines 794-825).  The
Summary and Per-Organizer sheets and the per-cell formatting are derived
presentation of the same filtered rows and carry no further record content. -/
structure ExportFile where
  detail : List Record
deriving DecidableEq, Repr

/-- The body of the `try` block of `export_to_excel` (src/app.py lines
768-868): `.ok none` models the early `return None` on empty input (lines
772-780, both guards are emptiness of the input records), `.error` models an
exception raised while building the workbook, and `.ok (some file)` a
completed workbook whose Detail sheet holds the filtered rows. -/
def export_attempt (env : ExportEnv) (data : List Record) (bulanF penF metF : List String) :
    Except String (Option ExportFile) :=
  if data.isEmpty then .ok none
  else
    let filtered :=
      export_filter_metode metF (export_filter_penyelenggara penF (export_filter_bulan bulanF data))
    match env.writerFailure with
    | some msg => .error msg
    | none => .ok (some ⟨filtered⟩)

/-- Embedding of `export_to_excel` (src/app.py lines 763-874): the whole body
runs inside `try`, and the `except` at lines 870-874 turns any exception into
`return None`, so the caller sees a file only when the body completed. -/
def export_to_excel (env : ExportEnv) (data : List Record) (bulanF penF metF : List String) :
    Option ExportFile :=
  match export_attempt env data bulanF penF metF with
  | .ok r => r
  | .error _ => none

/-- Environment of one acquisition attempt (`download_from_google_drive`,
src/app.py lines 35-80): the outcome of the remote fetch-and-parse (`none`
when any step of the `try` block raises), whether each local backup file
exists, and the outcome of reading each candidate file (`none` when the read
or parse raises). -/
structure AcqEnv where
  remote : Option (List Record)
  excelExists : Bool
  excelRead : Option (List Record)
  csvExists : Bool
  csvRead : Option (List Record)
  defaultRead : Option (List Record)
deriving DecidableEq, Repr

/-- Embedding of `download_from_google_drive` (src/app.py lines 35-80).  On
remote success the parsed records are returned with `connected = true`.  On
remote failure, the inner `try` picks one source by existence - the Excel
backup if present, else the CSV backup if present, else the bundled default
file - and reads it; if that single read raises, the inner `except` (lines
78-80) returns an empty record set.  Every outcome carries
`connected = false` and nothing propagates to the caller. -/
def download_from_google_drive (e : AcqEnv) : List Record × Bool :=
  match e.remote with
  | some records => (records, true)
  | none =>
    if e.excelExists then
      match e.excelRead with
      | some records => (records, false)
      | none => ([], false)
    else if e.csvExists then
      match e.csvRead with
      | some records => (records, false)
      | none => ([], false)
    else
      match e.defaultRead with
      | some records => (records, false)
      | none => ([], false)

/-- The fallback behaviour as the claim states it: on remote failure, try the
candidate sources in order (local spreadsheet backup if present, then local
delimited backup if present, then the bundled default file) and return the
first SUCCESSFULLY PARSED one with `connected = false`; an empty record set
only when every candidate fails. -/
def acquire_spec_claimed (e : AcqEnv) : List Record × Bool :=
  match e.remote with
  | some records => (records, true)
  | none =>
    let candidates :=
      (if e.excelExists then [e.excelRead] else [])
        ++ (if e.csvExists then [e.csvRead] else []) ++ [e.defaultRead]
    match candidates.filterMap id with
    | [] => ([], false)
    | records :: _ => (records, false)

/-- The amended fallback behaviour: on remote failure the code commits to the
first PRESENT source (spreadsheet backup, else delimited backup, else the
bundled default) and parses only that one; a failed parse of the chosen
source yields an empty record set, with no further fallback. -/
def acquire_spec_amended (e : AcqEnv) : List Record × Bool :=
  match e.remote with
  | some records => (records, true)
  | none =>
    let chosen :=
      if e.excelExists then e.excelRead
      else if e.csvExists then e.csvRead
      else e.defaultRead
    (chosen.getD [], false)

/-- What the `refresh_data` callback (src/app.py lines 476-514) returns to
the UI: the record set written to the data store, the last-update text and
the connection-status text (the status style carries the same information as
the text). -/
structure RefreshOut where
  records : List Record
  lastUpdate : String
  status : String
deriving DecidableEq, Repr

/-- Embedding of the `refresh_data` callback (src/app.py lines 476-514).
`startup_df` is the module-level `df` computed once at import (lines
155-161) and never reassigned - the `try` body only binds the local
`new_df`.  The body (download followed by `process_data`, with the current
wall-clock text `now`) is represented by its outcome `cycle`: `.ok` with the
new record set and connection flag, `.error` when any step raised (for
example `process_data`'s column access on a fetched table that lacks the
expected date columns).  The `except` branch (lines 505-514) returns the
startup snapshot together with an error status. -/
def refresh_data (startup_df : List Record) (now : String)
    (cycle : Except String (List Record × Bool)) : RefreshOut :=
  match cycle with
  | .ok (newRecords, isConnected) =>
    ⟨newRecords, "Update: " ++ now,
      if isConnected then "Online" else "Offline (Use Backup File)"⟩
  | .error e => ⟨startup_df, "Error: " ++ e.take 30, "Error"⟩

/-- A sample normalized record for concrete instantiations. -/
def sampleRec : Record :=
  ⟨"Pelatihan A", none, none, .s "PJJ", .s "BPPK", 10, 2, .i 1, .s "1",
    some 1, "Januari", some 2024, none⟩

/-- A record passes all three filter dimensions simultaneously: for each
supplied (non-empty) dimension, membership of the relevant field (organizer
and method converted to text); an empty dimension constrains nothing. -/
def passes_all (bulanF penF metF : List String) (r : Record) : Bool :=
  (bulanF.isEmpty || bulanF.contains r.Bulan_Indo)
    && (penF.isEmpty || penF.contains (pyStr r.Penyelenggara))
    && (metF.isEmpty || metF.contains (pyStr r.Metode))

/-- Applying all three filter predicates simultaneously, in one pass. -/
def simultaneous_filter (bulanF penF metF : List String) (data : List Record) : List Record :=
  data.filter (passes_all bulanF penF metF)

/-- The dashboard output on the single record `sampleRec` with no filters. -/
def sampleOut : DashOut :=
  ⟨1, 10, 0, 1, 2, 1, 10,
    some [("Januari", 1), ("Februari", 0), ("Maret", 0), ("April", 0), ("Mei", 0), ("Juni", 0),
      ("Juli", 0), ("Agustus", 0), ("September", 0), ("Oktober", 0), ("November", 0),
      ("Desember", 0)],
    some [(.s "PJJ", 1)], some [(.s "BPPK", 1)], some [(.s "1", 1)], [sampleRec]⟩

/-- Decidable equality of outcomes, used to evaluate the embedding on
concrete inputs. -/
instance exceptDecEq {e a : Type} [DecidableEq e] [DecidableEq a] :
    DecidableEq (Except e a) := fun x y =>
  match x, y with
  | .ok u, .ok v =>
    if h : u = v then isTrue (by rw [h]) else isFalse (fun hc => by cases hc; exact h rfl)
  | .error u, .error v =>
    if h : u = v then isTrue (by rw [h]) else isFalse (fun hc => by cases hc; exact h rfl)
  | .ok _, .error _ => isFalse (fun hc => by cases hc)
  | .error _, .ok _ => isFalse (fun hc => by cases hc)

lemma daysInMonth_pos (y m : Nat) : 1 ≤ daysInMonth y m := by
  unfold daysInMonth
  split_ifs <;> omega

lemma nextDay_valid (dt : SDate) (h : validDate dt) : validDate (nextDay dt) := by
  obtain ⟨y, m, d⟩ := dt
  obtain ⟨hy, hm1, hm2, hd1, hd2⟩ := h
  simp only at hy hm1 hm2 hd1 hd2
  unfold nextDay
  simp only
  split_ifs with h1 h2
  · simp only at h1
    unfold validDate
    refine ⟨?_, ?_, ?_, ?_, ?_⟩ <;> dsimp only <;> omega
  · simp only at h2
    unfold validDate
    have := daysInMonth_pos y (m + 1)
    refine ⟨?_, ?_, ?_, ?_, ?_⟩ <;> dsimp only <;> omega
  · unfold validDate
    refine ⟨?_, ?_, ?_, ?_, ?_⟩ <;> dsimp only <;> simp [daysInMonth]

set_option maxHeartbeats 1600000 in
lemma rataDie_nextDay (dt : SDate) (h : validDate dt) :
    rataDie (nextDay dt) = rataDie dt + 1 := by
  obtain ⟨y, m, d⟩ := dt
  obtain ⟨hy, hm1, hm2, hd1, hd2⟩ := h
  simp only at hy hm1 hm2 hd1 hd2
  unfold nextDay
  simp only
  split_ifs with h1 h2
  · simp only at h1
    simp only [rataDie, dayOfYear, isLeap]
    dsimp only
    split_ifs <;> omega
  · simp only at h2
    have hd : d = daysInMonth y m := by omega
    subst hd
    interval_cases m <;>
      (try simp only [rataDie, dayOfYear, daysInMonth, monthOffset, isLeap,
        eq_self_iff_true, true_or, or_true, if_true, if_false]) <;>
      (try dsimp only) <;> (try norm_num) <;> (try split_ifs) <;> omega
  · have hm : m = 12 := by omega
    subst hm
    have hd31 : daysInMonth y 12 = 31 := by simp [daysInMonth]
    have hd : d = 31 := by omega
    subst hd
    simp only [rataDie, dayOfYear, monthOffset, isLeap]
    dsimp only
    split_ifs <;> omega

lemma epochDays_nextDay (dt : SDate) (h : validDate dt) :
    epochDays (nextDay dt) = epochDays dt + 1 := by
  unfold epochDays
  rw [rataDie_nextDay dt h]
  push_cast
  ring

lemma nextDay_iterate_valid (s : SDate) (h : validDate s) (k : Nat) :
    validDate (nextDay^[k] s) := by
  induction k with
  | zero => simpa using h
  | succ n ih =>
    rw [Function.iterate_succ_apply']
    exact nextDay_valid _ ih

lemma epochDays_iterate (s : SDate) (h : validDate s) (k : Nat) :
    epochDays (nextDay^[k] s) = epochDays s + k := by
  induction k with
  | zero => simp
  | succ n ih =>
    rw [Function.iterate_succ_apply', epochDays_nextDay _ (nextDay_iterate_valid s h n), ih]
    push_cast
    ring

lemma filter_and_filter (u v : Record → Bool) (l : List Record) :
    (l.filter u).filter v = l.filter (fun a => u a && v a) := by
  induction l with
  | nil => rfl
  | cons x xs ih => cases hu : u x <;> cases hv : v x <;> simp [hu, hv, ih]

lemma filter_bulan_eq (f : List String) (rows : List Record) :
    filter_bulan f rows = rows.filter (fun r => f.isEmpty || f.contains r.Bulan_Indo) := by
  cases hf : f.isEmpty <;> simp [filter_bulan, hf]

lemma filter_penyelenggara_eq (f : List String) (rows : List Record) :
    filter_penyelenggara f rows
      = rows.filter (fun r => f.isEmpty || f.contains (pyStr r.Penyelenggara)) := by
  cases hf : f.isEmpty <;> simp [filter_penyelenggara, hf]

lemma filter_metode_eq (f : List String) (rows : List Record) :
    filter_metode f rows = rows.filter (fun r => f.isEmpty || f.contains (pyStr r.Metode)) := by
  cases hf : f.isEmpty <;> simp [filter_metode, hf]

/-- C1 (confirmed).  For identical record sets and identical filter
arguments, whenever the export produces a workbook and the dashboard callback
produces its outputs, the export has selected exactly the same subset of
records as the aggregator, and the Detail sheet row count equals the
aggregator's `count` (`total_pelatihan`). -/
theorem C1_export_detail_count_matches_aggregator
    (env : ExportEnv) (data : List Record) (b p m : List String)
    (w : ExportFile) (out : DashOut)
    (hw : export_to_excel env data b p m = some w)
    (ho : update_dashboard data b p m = .ok out) :
    w.detail = filter_metode m (filter_penyelenggara p (filter_bulan b data))
    ∧ w.detail.length = out.totalPelatihan := by
  have hfe : export_filter_metode m (export_filter_penyelenggara p (export_filter_bulan b data))
      = filter_metode m (filter_penyelenggara p (filter_bulan b data)) := rfl
  by_cases hde : data.isEmpty
  · unfold export_to_excel export_attempt at hw
    simp [hde] at hw
  · have hde' : data.isEmpty = false := by simpa using hde
    obtain ⟨wf⟩ := env
    unfold export_to_excel export_attempt at hw
    unfold update_dashboard at ho
    cases wf with
    | some msg => simp [hde'] at hw
    | none =>
      simp only [hde', Bool.false_eq_true, if_false] at hw ho
      simp only [Except.ok.injEq] at ho
      simp only [Option.some.injEq] at hw
      subst ho
      rw [← hw, hfe]
      exact ⟨rfl, rfl⟩

/-- Witness for C1: on the one-record set with no filters, the export yields
a workbook whose Detail sheet has the single filtered row, the dashboard
yields its output, and the two counts agree. -/
theorem C1_witness :
    export_to_excel ⟨none⟩ [sampleRec] [] [] [] = some ⟨[sampleRec]⟩
    ∧ update_dashboard [sampleRec] [] [] [] = .ok sampleOut
    ∧ (ExportFile.mk [sampleRec]).detail.length = sampleOut.totalPelatihan := by
  have hdash : update_dashboard [sampleRec] [] [] [] = .ok sampleOut := by
    unfold update_dashboard
    norm_num [sampleRec, sampleOut, filter_metode, filter_penyelenggara, filter_bulan,
      value_counts, insertByCountDesc, bulan_urutan, pyStr]
    decide
  exact ⟨by decide, hdash,
    (C1_export_detail_count_matches_aggregator ⟨none⟩ [sampleRec] [] [] []
      ⟨[sampleRec]⟩ sampleOut (by decide) hdash).2⟩

/-- Counterexample to C2 as stated: on the empty input record set (with no
filters supplied) the aggregator does not complete - `pd.DataFrame([])` has
no columns, so the `Metode` access at line 592 raises `KeyError` (modelled as
`.error`). -/
theorem C2_counterexample_empty_input_raises :
    update_dashboard [] [] [] [] = .error "KeyError: Metode" := by rfl

/-- C2 (corrected: the input record set must be non-empty; the empty input
raises a `KeyError`).  For every non-empty input record set and every filter
selection whose filtered subset is empty, the aggregator completes without
raising, and `count`, `total_participants`, `total_instructor_hours`,
`avg_participants`, `e_learning_count` and `pjj_count` are all zero, every
grouped count is empty, and the preview rows are empty. -/
theorem C2_empty_filtered_subset_all_zero
    (data : List Record) (b p m : List String) (hne : data ≠ [])
    (hf : filter_metode m (filter_penyelenggara p (filter_bulan b data)) = []) :
    update_dashboard data b p m = .ok ⟨0, 0, 0, 0, 0, 0, 0, none, none, none, none, []⟩ := by
  have hde : data.isEmpty = false := by simpa [List.isEmpty_iff] using hne
  unfold update_dashboard
  simp [hde, hf]

/-- Witness for C2: one record in January, month filter February - the
filtered subset is empty and all aggregates are zero/empty. -/
theorem C2_witness :
    update_dashboard [sampleRec] ["Februari"] [] []
      = .ok ⟨0, 0, 0, 0, 0, 0, 0, none, none, none, none, []⟩ :=
  C2_empty_filtered_subset_all_zero [sampleRec] ["Februari"] [] [] (by decide) (by decide)

/-- Counterexample to C3 as stated: "17 Agustus 1600" has the form
`D MonthName YYYY` with a valid day and a month name from the fixed table,
but 1600 is outside the range of a nanosecond pandas `Timestamp`, so the
strict parse raises `OutOfBoundsDatetime`, the bare `except` drops to the
generic fallback, and the fallback cannot parse the Indonesian month name:
the parser returns a null date, not 1600-08-17. -/
theorem C3_counterexample_out_of_range_year :
    parse_indonesian_date generic_fallback "17 Agustus 1600" = none := by decide

/-- C3 (corrected: the date must lie in the pandas `Timestamp` range,
1677-09-22 through 2262-04-11; outside it the strict parse raises and the
text falls through to the generic fallback).  For every date text that
whitespace-splits into exactly a 1-or-2-digit day, a month name from the
fixed 12-entry table, and a 4-digit year, where the day is valid for that
month and year and the date is in the `Timestamp` range, the parser returns
the correct calendar date - independently of the generic fallback `g`. -/
theorem C3_localized_date_parse_correct
    (g : String → Option SDate) (s dayS mName yearS monthEn : String)
    (y m d : Nat)
    (hsplit : pySplit s = [dayS, mName, yearS])
    (hmon : List.lookup mName month_map = some monthEn)
    (hmn : monthNumberEn monthEn = some m)
    (hdd : allDigits dayS = true) (hdl1 : 1 ≤ dayS.length) (hdl2 : dayS.length ≤ 2)
    (hdv : natOfDigits dayS = d)
    (hyd : allDigits yearS = true) (hyl : yearS.length = 4)
    (hyv : natOfDigits yearS = y)
    (hd1 : 1 ≤ d) (hd2 : d ≤ daysInMonth y m)
    (hbounds : pandas_in_bounds y m d = true) :
    parse_indonesian_date g s = some ⟨y, m, d⟩ := by
  unfold parse_indonesian_date localized_parse
  simp only [hsplit]
  simp only [List.get?]
  rw [hmon]
  unfold strptime_d_B_Y
  dsimp only
  rw [hmn]
  subst hdv hyv
  simp [hdd, hyd, hdl1, hdl2, hyl, hd1, hd2, hbounds]

/-- Witness for C3: "17 Agustus 1945" parses to 1945-08-17. -/
theorem C3_witness :
    parse_indonesian_date generic_fallback "17 Agustus 1945" = some ⟨1945, 8, 17⟩ :=
  C3_localized_date_parse_correct generic_fallback "17 Agustus 1945" "17" "Agustus" "1945"
    "August" 1945 8 17
    (by decide) (by decide) (by decide) (by decide) (by decide) (by decide) (by decide)
    (by decide) (by decide) (by decide) (by decide) (by decide) (by decide)

/-- C4 (confirmed).  An absent/empty filter dimension constrains nothing; a
record is in the filtered subset exactly when, for every supplied non-empty
dimension, its field (organizer and method converted to text) is a member of
that dimension's value set; and applying the three dimension filters in any
of the six orders yields the same subset as applying all three predicates
simultaneously. -/
theorem C4_filter_membership_and_order_independence
    (data : List Record) (b p m : List String) :
    (filter_bulan [] data = data ∧ filter_penyelenggara [] data = data
        ∧ filter_metode [] data = data)
    ∧ (∀ r : Record,
        r ∈ filter_metode m (filter_penyelenggara p (filter_bulan b data)) ↔
          r ∈ data ∧ (b ≠ [] → r.Bulan_Indo ∈ b) ∧ (p ≠ [] → pyStr r.Penyelenggara ∈ p)
            ∧ (m ≠ [] → pyStr r.Metode ∈ m))
    ∧ filter_metode m (filter_penyelenggara p (filter_bulan b data))
        = simultaneous_filter b p m data
    ∧ filter_metode m (filter_bulan b (filter_penyelenggara p data))
        = simultaneous_filter b p m data
    ∧ filter_penyelenggara p (filter_metode m (filter_bulan b data))
        = simultaneous_filter b p m data
    ∧ filter_penyelenggara p (filter_bulan b (filter_metode m data))
        = simultaneous_filter b p m data
    ∧ filter_bulan b (filter_metode m (filter_penyelenggara p data))
        = simultaneous_filter b p m data
    ∧ filter_bulan b (filter_penyelenggara p (filter_metode m data))
        = simultaneous_filter b p m data := by
  have hperm : ∀ (l : List Record) (u v w : Record → Bool),
      ((l.filter u).filter v).filter w = l.filter (fun a => u a && v a && w a) := by
    intro l u v w
    rw [filter_and_filter, filter_and_filter]
    apply List.filter_congr
    intro a _
    rw [Bool.and_assoc]
  refine ⟨⟨by simp [filter_bulan], by simp [filter_penyelenggara], by simp [filter_metode]⟩,
    ?_, ?_, ?_, ?_, ?_, ?_, ?_⟩
  · intro r
    rw [filter_bulan_eq, filter_penyelenggara_eq, filter_metode_eq]
    simp only [List.mem_filter]
    constructor
    · rintro ⟨⟨⟨hr, hb⟩, hp⟩, hm⟩
      refine ⟨hr, ?_, ?_, ?_⟩
      · intro hbne
        have : b.isEmpty = false := by simpa [List.isEmpty_iff] using hbne
        simp [this] at hb
        simpa using hb
      · intro hpne
        have : p.isEmpty = false := by simpa [List.isEmpty_iff] using hpne
        simp [this] at hp
        simpa using hp
      · intro hmne
        have : m.isEmpty = false := by simpa [List.isEmpty_iff] using hmne
        simp [this] at hm
        simpa using hm
    · rintro ⟨hr, hb, hp, hm⟩
      refine ⟨⟨⟨hr, ?_⟩, ?_⟩, ?_⟩
      · rcases hbe : b.isEmpty with _ | _
        · have hne : b ≠ [] := by simpa [List.isEmpty_iff] using hbe
          simp only [hbe, Bool.false_or]
          exact List.elem_eq_true_of_mem (hb hne)
        · simp [hbe]
      · rcases hpe : p.isEmpty with _ | _
        · have hne : p ≠ [] := by simpa [List.isEmpty_iff] using hpe
          simp only [hpe, Bool.false_or]
          exact List.elem_eq_true_of_mem (hp hne)
        · simp [hpe]
      · rcases hme : m.isEmpty with _ | _
        · have hne : m ≠ [] := by simpa [List.isEmpty_iff] using hme
          simp only [hme, Bool.false_or]
          exact List.elem_eq_true_of_mem (hm hne)
        · simp [hme]
  all_goals
    rw [filter_bulan_eq, filter_penyelenggara_eq, filter_metode_eq, hperm]
    unfold simultaneous_filter
    apply List.filter_congr
    intro a _
    simp [passes_all, Bool.and_assoc, Bool.and_comm, Bool.and_left_comm]

/-- Counterexample to C5 as stated: on a non-empty input record set (one row
in January) with the month filter February, the filtered subset is empty, so
the chart branch at line 596 takes the `else` arm and builds a blank figure -
the `by_month` grouped-count output does not exist (it is not a 12-entry
zero-filled table). -/
theorem C5_counterexample_empty_filtered_subset :
    okByMonth (update_dashboard [sampleRec] ["Februari"] [] []) = some none := by
  decide

/-- C5 (corrected: the FILTERED subset must be non-empty, not just the input;
when a filter empties the subset, the chart branch builds a blank figure and
no 12-entry table exists).  For every input and filter selection whose
filtered subset `F` is non-empty, the `by_month` output exists and is exactly
the 12 localized month names in fixed calendar order, each with the number of
matching records of `F`, an explicit zero for every month absent from `F`. -/
theorem C5_by_month_twelve_fixed_order
    (data : List Record) (b p m : List String) (F : List Record)
    (hF : F = filter_metode m (filter_penyelenggara p (filter_bulan b data)))
    (hne : data ≠ []) (hFne : F ≠ []) :
    okByMonth (update_dashboard data b p m)
      = some (some (bulan_urutan.map
          (fun bn => (bn, (F.filter (fun r => r.Bulan_Indo = bn)).length))))
    ∧ (bulan_urutan.map
        (fun bn => (bn, (F.filter (fun r => r.Bulan_Indo = bn)).length))).length = 12
    ∧ (bulan_urutan.map
        (fun bn => (bn, (F.filter (fun r => r.Bulan_Indo = bn)).length))).map Prod.fst
        = bulan_urutan
    ∧ ∀ pr ∈ bulan_urutan.map
        (fun bn => (bn, (F.filter (fun r => r.Bulan_Indo = bn)).length)),
        (∀ r ∈ F, r.Bulan_Indo ≠ pr.1) → pr.2 = 0 := by
  have hde : data.isEmpty = false := by simpa [List.isEmpty_iff] using hne
  have hFe : F.isEmpty = false := by simpa [List.isEmpty_iff] using hFne
  refine ⟨?_, by simp [bulan_urutan],
    by rw [List.map_map]; exact List.map_id' bulan_urutan, ?_⟩
  · unfold update_dashboard okByMonth
    rw [← hF] at *
    simp [hde, hFe]
  · intro pr hpr habs
    obtain ⟨bn, hbn, rfl⟩ := List.mem_map.mp hpr
    simp only
    rw [List.length_eq_zero, List.filter_eq_nil_iff]
    intro r hr
    simpa using habs r hr

/-- Witness for C5: the one-record set with no filters yields the 12-month
zero-filled table. -/
theorem C5_witness :
    okByMonth (update_dashboard [sampleRec] [] [] [])
      = some (some (bulan_urutan.map
          (fun bn => (bn, ((filter_metode [] (filter_penyelenggara []
              (filter_bulan [] [sampleRec]))).filter
            (fun r => r.Bulan_Indo = bn)).length)))) :=
  (C5_by_month_twelve_fixed_order [sampleRec] [] [] [] _ rfl (by decide) (by decide)).1

/-- Counterexample to C6 as stated: remote fetch failed, the spreadsheet
backup file is present but unreadable (its read raises), and the delimited
backup is present and parses to one record.  The claimed behaviour returns
the delimited backup's records; the code commits to the present spreadsheet
backup, catches its read error in the inner `except`, and returns the empty
record set. -/
theorem C6_counterexample_unparsable_present_backup :
    download_from_google_drive ⟨none, true, none, true, some [sampleRec], none⟩
      ≠ acquire_spec_claimed ⟨none, true, none, true, some [sampleRec], none⟩ := by
  decide

/-- C6 (corrected: the chain does not continue past the first PRESENT backup;
if the chosen source fails to parse, the result is the empty record set, not
the next candidate).  On remote success the records are returned with
`connected = true`; on remote failure the code selects the first present
source in strict order (spreadsheet backup, else delimited backup, else the
bundled default), returns its parse with `connected = false`, or an empty
record set with `connected = false` when that single read fails - and never
raises to the caller (the embedding is a total function). -/
theorem C6_fallback_first_present_source (e : AcqEnv) :
    download_from_google_drive e = acquire_spec_amended e := by
  obtain ⟨rem, ee, er, ce, cr, dr⟩ := e
  cases rem <;> cases ee <;> cases er <;> cases ce <;> cases cr <;> cases dr <;> rfl

/-- C7 (confirmed).  For every date text on which the localized strict branch
yields nothing (it does not match the `D MonthName YYYY` pattern, or its
strict parse fails) and which the permissive generic fallback cannot parse,
`parse_indonesian_date` returns a null date; it is a total function, so it
never raises. -/
theorem C7_unparsable_text_yields_null
    (g : String → Option SDate) (s : String)
    (hloc : localized_parse s = none) (hg : g s = none) :
    parse_indonesian_date g s = none := by
  unfold parse_indonesian_date
  rw [hloc, hg]

/-- Witness for C7: "not a date" fails the localized branch and the fallback,
and yields a null date. -/
theorem C7_witness : parse_indonesian_date generic_fallback "not a date" = none :=
  C7_unparsable_text_yields_null generic_fallback "not a date" (by decide) rfl

/-- C8 (confirmed).  The derived duration is null when either date is null;
for non-null dates it is the end-minus-start day difference plus one; and for
an end date `k` calendar days after a valid start date the duration is
`k + 1`, so both endpoints are counted (start 2024-01-01, end 2024-01-05
gives 5). -/
theorem C8_duration_inclusive_days :
    (∀ e, durasi none e = none)
    ∧ (∀ s, durasi s none = none)
    ∧ (∀ s e : SDate, durasi (some s) (some e) = some (epochDays e - epochDays s + 1))
    ∧ (∀ (s : SDate) (k : Nat), validDate s →
        durasi (some s) (some (nextDay^[k] s)) = some ((k : Int) + 1)) := by
  refine ⟨fun e => rfl, fun s => by cases s <;> rfl, fun s e => rfl, fun s k hv => ?_⟩
  unfold durasi
  dsimp only
  rw [epochDays_iterate s hv k]
  congr 1
  ring

/-- Witness for C8: 2024-01-05 is four days after 2024-01-01 and the duration
is 5, inclusive of both endpoints. -/
theorem C8_witness : durasi (some ⟨2024, 1, 1⟩) (some ⟨2024, 1, 5⟩) = some 5 := by
  have h := C8_duration_inclusive_days.2.2.2 ⟨2024, 1, 1⟩ 4 (by decide)
  have hit : nextDay^[4] (⟨2024, 1, 1⟩ : SDate) = ⟨2024, 1, 5⟩ := by decide
  rw [hit] at h
  norm_num at h
  exact h

/-- C9 (confirmed).  Whenever an exception is raised while building the
export workbook, the top-level `except` catches it and the caller receives
no file (`None`) instead of a propagating exception. -/
theorem C9_export_exception_caught_no_file
    (env : ExportEnv) (data : List Record) (b p m : List String) (msg : String)
    (herr : export_attempt env data b p m = .error msg) :
    export_to_excel env data b p m = none := by
  unfold export_to_excel
  rw [herr]

/-- Witness for C9: with a writer that raises `ValueError`, the export
returns no file. -/
theorem C9_witness : export_to_excel ⟨some "ValueError"⟩ [sampleRec] [] [] [] = none :=
  C9_export_exception_caught_no_file ⟨some "ValueError"⟩ [sampleRec] [] [] []
    "ValueError" (by rfl)

/-- C10 (confirmed).  If the refresh cycle body (acquisition or
normalization) raises, the callback returns the record set bound at
application startup - the module-level `df`, never reassigned - together
with the "Error" status string, regardless of what the data store currently
displays; a failed refresh therefore overwrites the store with the
startup-time snapshot. -/
theorem C10_refresh_error_returns_startup_snapshot
    (startup : List Record) (now : String)
    (cycle : Except String (List Record × Bool)) (e : String) (herr : cycle = .error e) :
    (refresh_data startup now cycle).records = startup
    ∧ (refresh_data startup now cycle).status = "Error" := by
  subst herr
  exact ⟨rfl, rfl⟩

/-- Witness for C10: a failing cycle returns the startup snapshot and the
error status. -/
theorem C10_witness :
    (refresh_data [sampleRec] "10:00:00" (.error "boom")).records = [sampleRec]
    ∧ (refresh_data [sampleRec] "10:00:00" (.error "boom")).status = "Error" :=
  C10_refresh_error_returns_startup_snapshot [sampleRec] "10:00:00" (.error "boom") "boom" rfl
